import Mathlib

set_option maxRecDepth 100000

/-!
Shallow embedding of `src/mountwrapper.cc` (a fork/exec/wait wrapper that
defers all log-file I/O until after the child has been reaped), together
with theorems checking the specification's claims against it.

Byte strings handled by `CanonicaliseString` are modelled as `List Nat`
(one entry per byte, values 0..255).  Text strings elsewhere are modelled
as Lean `String`s whose characters stand for the C++ `std::string` bytes
(all literal text in the program is ASCII, where the two views coincide).
Operating-system interactions (`fork`, `waitpid`, `open`, `write`,
`clock_gettime`, `getenv`) are modelled by an oracle supplying their
results, and a run of the program is a pure function of the configuration
and the oracle producing a trace of externally visible events plus the
process exit status.
-/

namespace Mountwrapper

/-- `EXIT_SUCCESS` from `<cstdlib>`. -/
def EXIT_SUCCESS : Nat := 0

/-- `EXIT_FAILURE` from `<cstdlib>`. -/
def EXIT_FAILURE : Nat := 1

/-- `kMaxEnvVarValueLength` (mountwrapper.cc line 53). -/
def kMaxEnvVarValueLength : Nat := 40

/-- `kDefaultOutputFile` (mountwrapper.cc lines 47-48). -/
def kDefaultOutputFile : String := "/var/lib/storageos/logs/mountwrapper.log"

/-- `kMountBinaryLocation` (mountwrapper.cc line 51). -/
def kMountBinaryLocation : String := "/usr/bin/mount.real"

/-- The per-byte replacement performed by the loop at mountwrapper.cc
lines 141-144: `if (output[n] < 32 || output[n] > 127) output[n] = '.';`.
`output[n]` has C type `char`.  With signed `char` (x86) a byte `b ≥ 128`
is read as `b - 256 < 32`, and with unsigned `char` it satisfies
`b > 127`; either way the replacement condition on the byte value
`b ∈ [0,255]` is exactly `b < 32 ∨ b > 127`, which keeps byte 127 (DEL).
`46` is the byte value of the placeholder character `'.'`. -/
def canonReplace (b : Nat) : Nat :=
  if b < 32 ∨ b > 127 then 46 else b

/-- `CanonicaliseString` (mountwrapper.cc lines 136-146): truncate to
`kMaxEnvVarValueLength` bytes — `substr(0, kMaxEnvVarValueLength - 3)`
followed by appending `"..."` (three `'.'` bytes, value 46) — when the
input is strictly longer than the maximum, then replace every byte
outside the kept range by `'.'` via `canonReplace`. -/
def CanonicaliseString (input : List Nat) : List Nat :=
  let output : List Nat :=
    if input.length > kMaxEnvVarValueLength then
      input.take (kMaxEnvVarValueLength - 3) ++ [46, 46, 46]
    else input
  output.map canonReplace

/-- Character-level view of `CanonicaliseString`, used where `main`
canonicalises environment values held as text strings (mountwrapper.cc
line 177): each character code plays the role of one byte. -/
def CanonicaliseStringS (s : String) : String :=
  String.mk (((CanonicaliseString (s.data.map Char.toNat)).map
    (fun b => Char.ofNat b)))

/-- `EnvStringWithDefault` (mountwrapper.cc lines 58-65): `present` is the
result of `getenv` (`none` models a null pointer). -/
def EnvStringWithDefault (present : Option String) (default_value : String) :
    String :=
  match present with
  | none => default_value
  | some s => if s = "" then default_value else s

/-- POSIX `basename(3)` as called at mountwrapper.cc line 161 to set
`progname`: the last non-empty path component; `"."` for the empty string
and `"/"` for a path made of slashes only. -/
def basenameStr (s : String) : String :=
  match ((s.splitOn "/").filter (fun c => c ≠ "")).getLast? with
  | some c => c
  | none => if s = "" then "." else "/"

/-- `GetVecString` (mountwrapper.cc lines 110-121): comma-separated list
of the elements, each wrapped in double quotes (the loop with the `first`
flag emits `","` before every element but the first). -/
def GetVecString (vec : List String) : String :=
  String.intercalate "," (vec.map (fun s => "\"" ++ s ++ "\""))

/-- `GetMapString` (mountwrapper.cc lines 123-134): `key=value` pairs in
`std::map` iteration order (ascending keys), joined by commas. -/
def GetMapString (map : List (String × String)) : String :=
  String.intercalate "," (map.map (fun kv => kv.1 ++ "=" ++ kv.2))

/-- Ordered insertion modelling `env[key] = value` on the `std::map`
(mountwrapper.cc line 178): replaces the value when the key is present,
otherwise inserts keeping keys sorted (the map iterates in key order). -/
def envInsert : List (String × String) → String → String →
    List (String × String)
  | [], k, v => [(k, v)]
  | (k0, v0) :: rest, k, v =>
    if k = k0 then (k0, v) :: rest
    else if k < k0 then (k, v) :: (k0, v0) :: rest
    else (k0, v0) :: envInsert rest k v

/-- One iteration of the environment-copy loop (mountwrapper.cc lines
171-179): split `key=value` at the first `'='`; an entry with no `'='` is
skipped (`find` returns `npos`). -/
def envParseOne (kv : String) : Option (String × String) :=
  match kv.splitOn "=" with
  | [] => none
  | [_] => none
  | k :: rest => some (k, String.intercalate "=" rest)

/-- The environment snapshot built by the loop at mountwrapper.cc lines
170-180: each `key=value` entry of `environ` is parsed and inserted with a
canonicalised value. -/
def buildEnvMap (environ : List String) : List (String × String) :=
  environ.foldl
    (fun m kv =>
      match envParseOne kv with
      | none => m
      | some (k, v) => envInsert m k (CanonicaliseStringS v)) []

/-- The `wstatus` outcome observed by `waitpid` (mountwrapper.cc lines
229-246): a normal exit with `WEXITSTATUS` code, a signal termination
with `WTERMSIG` number, or any other status (raw `wstatus` value). -/
inductive WaitStatus where
  | exited (code : Nat)
  | signaled (sig : Nat)
  | other (raw : Int)
deriving DecidableEq

/-- The outcome fragment appended to the completion log line
(mountwrapper.cc lines 229-246). -/
def outcomeMsg : WaitStatus → String
  | .exited ec =>
    if ec = 128 then "failed to execv(2) (ec==128)"
    else "exit with code " ++ toString ec
  | .signaled sig => "exit with signal " ++ toString sig
  | .other w => "stopped with unknown status " ++ toString w

/-- The `child_exit_code` assignment in the same classification
(mountwrapper.cc lines 236, 241, 245): the child's exit code on a normal
exit (including 128), `EXIT_FAILURE` otherwise. -/
def childExitOf : WaitStatus → Nat
  | .exited ec => ec
  | .signaled _ => EXIT_FAILURE
  | .other _ => EXIT_FAILURE

/-- The wrapper's inputs fixed before the fork: the argument vector, the
raw environment, the two `getenv` results, and the three timestamps the
clock returns (`GetNanoTimestring` once, `GetTimestamp` once per buffered
log line). -/
structure Config where
  argv : List String
  environ : List String
  getenvOutputVar : Option String
  getenvBinaryVar : Option String
  runtimestamp : String
  ts1 : String
  ts2 : String
deriving DecidableEq

/-- Results of the OS calls `main` makes after the setup: whether `fork`,
`waitpid` and `open` fail (with the `strerror` text each would report),
the status `waitpid` reports, the byte counts returned by the successive
`write` calls (a missing entry models a full write), and the `strerror`
text of a failed write. -/
structure Oracle where
  forkFails : Bool
  forkErr : String
  waitFails : Bool
  waitErr : String
  waitStatus : WaitStatus
  openFails : Bool
  openErr : String
  writeRet : List Int
  writeErr : String
deriving DecidableEq

/-- Externally visible events of one parent-process run, in program
order. -/
inductive Event where
  | forkCall
  | waitReturn
  | stderrMsg (s : String)
  | openLog (path : String)
  | writeCall (data : String)
deriving DecidableEq

/-- An event is an operation on the log file (the `open` at line 258 or a
`write` at lines 264/268); `fork`, `waitpid` and standard-error output are
not. -/
def isLogFileOp : Event → Bool
  | .openLog _ => true
  | .writeCall _ => true
  | _ => false

/-- `logfile` after resolution (mountwrapper.cc line 156). -/
def logfileOf (cfg : Config) : String :=
  EnvStringWithDefault cfg.getenvOutputVar kDefaultOutputFile

/-- `binary` after resolution (mountwrapper.cc lines 157-158). -/
def binaryOf (cfg : Config) : String :=
  EnvStringWithDefault cfg.getenvBinaryVar kMountBinaryLocation

/-- `progname` (mountwrapper.cc line 161): `basename(argv[0])`. -/
def prognameOf (cfg : Config) : String :=
  basenameStr (cfg.argv.headD "")

/-- `argstr` (mountwrapper.cc line 184): the copied argument vector
rendered by `GetVecString`. -/
def argstrOf (cfg : Config) : String :=
  GetVecString cfg.argv

/-- The text `error_sys` writes to standard error (mountwrapper.cc lines
67-71) before exiting with `EXIT_FAILURE`. -/
def errMsgOf (cfg : Config) (message err : String) : String :=
  prognameOf cfg ++ " (wrapper): " ++ message ++ ": " ++ err

/-- The first buffered log line (mountwrapper.cc lines 183-189, with the
`GetTimestamp` prefix added by `Log` at line 150). -/
def startLine (cfg : Config) : String :=
  cfg.ts1 ++ " " ++ "runtimestamp " ++ cfg.runtimestamp ++ " execute '"
    ++ binaryOf cfg ++ "' argv:[" ++ argstrOf cfg ++ "] environment:["
    ++ GetMapString (buildEnvMap cfg.environ) ++ "]"

/-- The second buffered log line (mountwrapper.cc lines 222-247): the
completion prefix, a space, then the outcome fragment, with the
`GetTimestamp` prefix added by `Log`. -/
def endLine (cfg : Config) (ws : WaitStatus) : String :=
  cfg.ts2 ++ " " ++ "runtimestamp " ++ cfg.runtimestamp ++ " completed '"
    ++ binaryOf cfg ++ "' args:[" ++ argstrOf cfg ++ "]" ++ " "
    ++ outcomeMsg ws

/-- The `output` buffer at flush time: the start line and exactly one
completion line. -/
def logLines (cfg : Config) (ws : WaitStatus) : List String :=
  [startLine cfg, endLine cfg ws]

/-- The result of the `i`-th `write` call under the oracle: the listed
return value, or the full requested count when the oracle list is
exhausted. -/
def writeRetAt (rs : List Int) (i : Nat) (req : Nat) : Int :=
  (rs.get? i).getD (Int.ofNat req)

/-- The standard-error text of a failed log write (mountwrapper.cc lines
266 and 270 via `error_sys`). -/
def logWriteFailMsg (cfg : Config) (o : Oracle) : String :=
  errMsgOf cfg "Failed to write to log file" o.writeErr

/-- The flush loop (mountwrapper.cc lines 263-272): for each buffered
line, one `write` call with the line bytes, checked against the line
size, then one `write` call with the single newline byte, checked against
1; the first failed check reaches `error_sys` and exits `EXIT_FAILURE`.
`i` counts the `write` calls made so far; the result is the event list
and `some` exit code if `error_sys` ran, `none` if the loop completed. -/
def flushFrom (cfg : Config) (o : Oracle) :
    List String → Nat → List Event × Option Nat
  | [], _ => ([], none)
  | l :: rest, i =>
    if writeRetAt o.writeRet i l.length ≠ (l.length : Int) then
      ([Event.writeCall l, Event.stderrMsg (logWriteFailMsg cfg o)],
        some EXIT_FAILURE)
    else if writeRetAt o.writeRet (i + 1) 1 ≠ (1 : Int) then
      ([Event.writeCall l, Event.writeCall "\n",
        Event.stderrMsg (logWriteFailMsg cfg o)], some EXIT_FAILURE)
    else
      (Event.writeCall l :: Event.writeCall "\n"
          :: (flushFrom cfg o rest (i + 2)).1,
        (flushFrom cfg o rest (i + 2)).2)

/-- Whether the flush loop runs to completion (`none`) or dies in
`error_sys` (`some EXIT_FAILURE`). -/
def flushErr (cfg : Config) (o : Oracle) : Option Nat :=
  (flushFrom cfg o (logLines cfg o.waitStatus) 0).2

/-- Result of one parent-process run: the event trace and the process
exit status (via `return` from `main` or `exit` in `error_sys`). -/
structure RunResult where
  trace : List Event
  exit : Nat
deriving DecidableEq

/-- The parent-side behaviour of `main` (mountwrapper.cc lines 153-275)
from the fork on: `fork` (fatal on failure, before any log-file I/O),
`waitpid` (fatal on failure), outcome classification, then — only
after `waitpid` has returned — the `open` of the log file (fatal on
failure) and the flush loop; the final exit status is `child_exit_code`
unless `error_sys` ran. -/
def run (cfg : Config) (o : Oracle) : RunResult :=
  if o.forkFails then
    { trace := [Event.forkCall,
        Event.stderrMsg (errMsgOf cfg "fork() failed" o.forkErr)],
      exit := EXIT_FAILURE }
  else if o.waitFails then
    { trace := [Event.forkCall,
        Event.stderrMsg (errMsgOf cfg "waitpid() failed" o.waitErr)],
      exit := EXIT_FAILURE }
  else if o.openFails then
    { trace := [Event.forkCall, Event.waitReturn,
        Event.openLog (logfileOf cfg),
        Event.stderrMsg (errMsgOf cfg "Failed to open log file" o.openErr)],
      exit := EXIT_FAILURE }
  else
    { trace := Event.forkCall :: Event.waitReturn
        :: Event.openLog (logfileOf cfg)
        :: (flushFrom cfg o (logLines cfg o.waitStatus) 0).1,
      exit := (flushFrom cfg o (logLines cfg o.waitStatus) 0).2.getD
        (childExitOf o.waitStatus) }

/-- Result of the child branch (mountwrapper.cc lines 200-213): the path
and argument vector handed to `execv`, the events the child itself emits,
and `some` exit code when `execv` returned (failure) — `none` means the
image was replaced and the wrapper code never ran further. -/
structure ChildResult where
  execPath : String
  execArgs : List String
  events : List Event
  exit : Option Nat
deriving DecidableEq

/-- The child branch: `execv(binary.c_str(), argv)` with the original,
untouched `argv`; on failure a diagnostic on the child's own standard
error followed by `exit(128)`, with no log-file access of any kind. -/
def childRun (cfg : Config) (execFails : Bool) (execErr : String) :
    ChildResult :=
  { execPath := binaryOf cfg
    execArgs := cfg.argv
    events :=
      if execFails then
        [Event.stderrMsg (prognameOf cfg ++ " (wrapper): "
          ++ "execv() failed" ++ ": " ++ execErr)]
      else []
    exit := if execFails then some 128 else none }

/-- A concrete configuration used to evaluate the theorems: a plain mount
invocation with an empty environment and both override variables unset. -/
def cfgA : Config :=
  { argv := ["/sbin/mount", "-t", "ext4"]
    environ := []
    getenvOutputVar := none
    getenvBinaryVar := none
    runtimestamp := "1621334185.000000001"
    ts1 := "2021-05-18T09:56:25.000000"
    ts2 := "2021-05-18T09:56:26.000000" }

/-- An oracle on which every OS call succeeds and every `write` transfers
the full requested count, with the given wait status. -/
def okOracle (ws : WaitStatus) : Oracle :=
  { forkFails := false, forkErr := "", waitFails := false, waitErr := ""
    waitStatus := ws, openFails := false, openErr := ""
    writeRet := [], writeErr := "" }

/-- An oracle on which `fork` fails. -/
def forkFailOracle : Oracle :=
  { okOracle (WaitStatus.exited 0) with
    forkFails := true, forkErr := "Resource temporarily unavailable" }

/-- An oracle on which the child exits 0 but the first log `write`
reports 0 bytes transferred. -/
def writeFailOracle : Oracle :=
  { okOracle (WaitStatus.exited 0) with
    writeRet := [0], writeErr := "No space left on device" }

end Mountwrapper

namespace Mountwrapper

/-- When the flush loop completes, its event list is exactly two `write`
calls per buffered line: the line bytes, then the lone newline byte. -/
lemma flushFrom_ok (cfg : Config) (o : Oracle) (lines : List String) :
    ∀ i : Nat, (flushFrom cfg o lines i).2 = none →
      (flushFrom cfg o lines i).1
        = lines.flatMap (fun l => [Event.writeCall l, Event.writeCall "\n"]) := by
  induction lines with
  | nil => intro i _; simp [flushFrom]
  | cons l rest ih =>
    intro i hok
    by_cases h1 : writeRetAt o.writeRet i l.length ≠ (l.length : Int)
    · rw [flushFrom, if_pos h1] at hok
      exact absurd hok (by simp)
    · by_cases h2 : writeRetAt o.writeRet (i + 1) 1 ≠ (1 : Int)
      · rw [flushFrom, if_neg h1, if_pos h2] at hok
        exact absurd hok (by simp)
      · rw [flushFrom, if_neg h1, if_neg h2] at hok ⊢
        simp only [List.flatMap_cons]
        rw [ih (i + 2) hok]
        rfl

/-- When the flush loop does not complete, it died in `error_sys`: the
pending exit code is `EXIT_FAILURE` and the trace carries the
write-failure diagnostic. -/
lemma flushFrom_fail (cfg : Config) (o : Oracle) (lines : List String) :
    ∀ i : Nat, (flushFrom cfg o lines i).2 ≠ none →
      (flushFrom cfg o lines i).2 = some EXIT_FAILURE
        ∧ Event.stderrMsg (logWriteFailMsg cfg o)
            ∈ (flushFrom cfg o lines i).1 := by
  induction lines with
  | nil => intro i h; simp [flushFrom] at h
  | cons l rest ih =>
    intro i h
    by_cases h1 : writeRetAt o.writeRet i l.length ≠ (l.length : Int)
    · rw [flushFrom, if_pos h1] at h ⊢
      exact ⟨rfl, by simp⟩
    · by_cases h2 : writeRetAt o.writeRet (i + 1) 1 ≠ (1 : Int)
      · rw [flushFrom, if_neg h1, if_pos h2] at h ⊢
        exact ⟨rfl, by simp⟩
      · rw [flushFrom, if_neg h1, if_neg h2] at h ⊢
        obtain ⟨hx, hm⟩ := ih (i + 2) h
        exact ⟨hx, by simp [hm]⟩

/-- Shape of a run on which `fork`, `waitpid` and `open` all succeed. -/
lemma run_ok (cfg : Config) (o : Oracle) (hf : o.forkFails = false)
    (hw : o.waitFails = false) (ho : o.openFails = false) :
    (run cfg o).trace
        = Event.forkCall :: Event.waitReturn :: Event.openLog (logfileOf cfg)
            :: (flushFrom cfg o (logLines cfg o.waitStatus) 0).1
      ∧ (run cfg o).exit
        = (flushErr cfg o).getD (childExitOf o.waitStatus) := by
  rw [run, if_neg (by simp [hf]), if_neg (by simp [hw]), if_neg (by simp [ho])]
  exact ⟨rfl, rfl⟩

/-- In a list all of whose members fail `isLogFileOp`, no position holds a
log-file operation. -/
lemma not_logfileop_at {l : List Event}
    (hall : ∀ x ∈ l, isLogFileOp x = false) {i : Nat} {e : Event}
    (hg : l[i]? = some e) (hio : isLogFileOp e = true) : False := by
  rw [hall e (List.getElem?_mem hg)] at hio
  exact Bool.false_ne_true hio

/-- In a trace of the shape `forkCall :: waitReturn :: rest`, any position
holding a log-file operation has `waitReturn` strictly before it. -/
lemma waitReturn_mem_take {rest : List Event} {i : Nat} {e : Event}
    (hg : (Event.forkCall :: Event.waitReturn :: rest)[i]? = some e)
    (hio : isLogFileOp e = true) :
    Event.waitReturn
      ∈ (Event.forkCall :: Event.waitReturn :: rest).take i := by
  match i with
  | 0 =>
    simp only [List.getElem?_cons_zero, Option.some.injEq] at hg
    rw [← hg] at hio
    exact absurd hio (by decide)
  | 1 =>
    simp only [List.getElem?_cons_succ, List.getElem?_cons_zero,
      Option.some.injEq] at hg
    rw [← hg] at hio
    exact absurd hio (by decide)
  | (k + 2) =>
    rw [List.take_succ_cons, List.take_succ_cons]
    exact List.mem_cons_of_mem _ (List.mem_cons_self _ _)

/-- Shape of a run on which `fork` fails (mountwrapper.cc lines
197-199). -/
lemma run_forkFail (cfg : Config) (o : Oracle) (hf : o.forkFails = true) :
    run cfg o
      = { trace := [Event.forkCall,
            Event.stderrMsg (errMsgOf cfg "fork() failed" o.forkErr)]
          exit := EXIT_FAILURE } := by
  rw [run, if_pos hf]

/-- Shape of a run on which `waitpid` fails (mountwrapper.cc lines
218-221). -/
lemma run_waitFail (cfg : Config) (o : Oracle) (hf : o.forkFails = false)
    (hw : o.waitFails = true) :
    run cfg o
      = { trace := [Event.forkCall,
            Event.stderrMsg (errMsgOf cfg "waitpid() failed" o.waitErr)]
          exit := EXIT_FAILURE } := by
  rw [run, if_neg (by simp [hf]), if_pos hw]

/-- Shape of a run on which the log-file `open` fails (mountwrapper.cc
lines 258-261). -/
lemma run_openFail (cfg : Config) (o : Oracle) (hf : o.forkFails = false)
    (hw : o.waitFails = false) (ho : o.openFails = true) :
    run cfg o
      = { trace := [Event.forkCall, Event.waitReturn,
            Event.openLog (logfileOf cfg),
            Event.stderrMsg (errMsgOf cfg "Failed to open log file" o.openErr)]
          exit := EXIT_FAILURE } := by
  rw [run, if_neg (by simp [hf]), if_neg (by simp [hw]), if_pos ho]

/-- C3: as stated the claim fails on the code: the canonicalisation of the
one-byte input `[127]` (DEL) is `[127]` — byte 127 is not replaced by the
placeholder and lies outside the printable range 32..126 the claim
asserts for every output byte. -/
theorem C3_counterexample :
    CanonicaliseString [127] = [127] ∧ 126 < 127 := by
  constructor
  · rfl
  · decide

/-- C3 (amended): every byte of the canonicalised output lies in the range
32..127; every byte strictly below 32 or strictly above 127 is replaced by
the placeholder `'.'` (byte 46); byte 127 (DEL) is kept unchanged rather
than replaced. -/
theorem C3_printable_range (input : List Nat) :
    (∀ b ∈ CanonicaliseString input, 32 ≤ b ∧ b ≤ 127)
      ∧ (∀ b : Nat, b < 32 ∨ 127 < b → canonReplace b = 46)
      ∧ canonReplace 127 = 127 := by
  refine ⟨?_, ?_, rfl⟩
  · intro b hb
    simp only [CanonicaliseString, List.mem_map] at hb
    obtain ⟨a, -, rfl⟩ := hb
    simp only [canonReplace]
    split <;> omega
  · intro b hb
    simp only [canonReplace, if_pos (by omega : b < 32 ∨ b > 127)]

/-- C3 witness: the amended theorem evaluated at concrete bytes: byte 200
is replaced by `'.'` and byte 127 is kept. -/
theorem C3_witness : canonReplace 200 = 46 ∧ canonReplace 127 = 127 :=
  ⟨(C3_printable_range []).2.1 200 (Or.inr (by decide)),
   (C3_printable_range []).2.2⟩

/-- C8: the canonicalised output never exceeds `kMaxEnvVarValueLength`
(40) bytes; inputs of length at most 40 keep their length; every strictly
longer input produces an output ending in the truncation marker `"..."`
(three bytes 46). -/
theorem C8_truncation (input : List Nat) :
    (CanonicaliseString input).length ≤ kMaxEnvVarValueLength
      ∧ (input.length ≤ kMaxEnvVarValueLength →
          (CanonicaliseString input).length = input.length)
      ∧ (kMaxEnvVarValueLength < input.length →
          [46, 46, 46] <:+ CanonicaliseString input) := by
  refine ⟨?_, ?_, ?_⟩
  · by_cases h : input.length > kMaxEnvVarValueLength
    · simp only [CanonicaliseString, if_pos h, List.length_map,
        List.length_append, List.length_take]
      simp [kMaxEnvVarValueLength]
    · simp only [CanonicaliseString, if_neg h, List.length_map]
      omega
  · intro h
    simp only [CanonicaliseString, if_neg (by omega : ¬ input.length > kMaxEnvVarValueLength),
      List.length_map]
  · intro h
    simp only [CanonicaliseString, if_pos (by omega : input.length > kMaxEnvVarValueLength),
      List.map_append]
    exact ⟨(input.take (kMaxEnvVarValueLength - 3)).map canonReplace, by rfl⟩

/-- C8 witness: the truncation theorem evaluated at a concrete 41-byte
input (all `'A'`): the output has length 40 ≤ 40 and ends in `"..."`. -/
theorem C8_witness :
    (CanonicaliseString (List.replicate 41 65)).length ≤ kMaxEnvVarValueLength
      ∧ [46, 46, 46] <:+ CanonicaliseString (List.replicate 41 65) :=
  ⟨(C8_truncation (List.replicate 41 65)).1,
   (C8_truncation (List.replicate 41 65)).2.2 (by decide)⟩

/-- C1: in every run, any log-file operation (the `open` of the resolved
log path or a `write`) occurs at a trace position strictly after a
successful `waitpid` return; and when `fork` fails the wrapper exits
`EXIT_FAILURE` reporting the OS error on standard error, with no log-file
operation anywhere in its trace. -/
theorem C1_deferred_log_flush (cfg : Config) (o : Oracle) :
    (∀ (i : Nat) (e : Event), (run cfg o).trace[i]? = some e →
        isLogFileOp e = true →
        Event.waitReturn ∈ (run cfg o).trace.take i)
      ∧ (o.forkFails = true →
          (run cfg o).exit = EXIT_FAILURE
            ∧ Event.stderrMsg (errMsgOf cfg "fork() failed" o.forkErr)
                ∈ (run cfg o).trace
            ∧ ∀ e ∈ (run cfg o).trace, isLogFileOp e = false) := by
  constructor
  · intro i e hg hio
    by_cases hf : o.forkFails = true
    · rw [run_forkFail cfg o hf] at hg
      exact (not_logfileop_at (by intro x hx; fin_cases hx <;> rfl) hg hio).elim
    · rw [Bool.not_eq_true] at hf
      by_cases hw : o.waitFails = true
      · rw [run_waitFail cfg o hf hw] at hg
        exact (not_logfileop_at (by intro x hx; fin_cases hx <;> rfl) hg hio).elim
      · rw [Bool.not_eq_true] at hw
        by_cases ho : o.openFails = true
        · rw [run_openFail cfg o hf hw ho] at hg ⊢
          exact waitReturn_mem_take hg hio
        · rw [Bool.not_eq_true] at ho
          rw [(run_ok cfg o hf hw ho).1] at hg ⊢
          exact waitReturn_mem_take hg hio
  · intro hf
    rw [run_forkFail cfg o hf]
    refine ⟨rfl, by simp, ?_⟩
    intro e he
    fin_cases he <;> rfl

/-- C1 witness: on a concrete all-success run the log-file `open` sits at
trace position 2 and `waitReturn` is strictly before it; on a concrete
fork-failure run the wrapper exits `EXIT_FAILURE`. -/
theorem C1_witness :
    Event.waitReturn
        ∈ ((run cfgA (okOracle (WaitStatus.exited 0))).trace.take 2)
      ∧ (run cfgA forkFailOracle).exit = EXIT_FAILURE := by
  constructor
  · exact (C1_deferred_log_flush cfgA (okOracle (WaitStatus.exited 0))).1 2
      (Event.openLog (logfileOf cfgA)) (by decide) (by decide)
  · exact ((C1_deferred_log_flush cfgA forkFailOracle).2 rfl).1

/-- C2: when the child terminates normally with exit code `N ≠ 128` and
the deferred flush completes, the wrapper's own exit status equals `N`
exactly. -/
theorem C2_exit_code_mirrored (cfg : Config) (o : Oracle) (N : Nat)
    (hf : o.forkFails = false) (hw : o.waitFails = false)
    (ho : o.openFails = false)
    (hs : o.waitStatus = WaitStatus.exited N)
    (hfl : flushErr cfg o = none) (_hN : N ≠ 128) :
    (run cfg o).exit = N := by
  rw [(run_ok cfg o hf hw ho).2, hfl, hs]
  rfl

/-- C2 witness: a concrete run whose child exits 42 makes the wrapper
exit 42 (and the analogous run for 0 exits 0, via the same theorem at 0).
-/
theorem C2_witness :
    (run cfgA (okOracle (WaitStatus.exited 42))).exit = 42
      ∧ (run cfgA (okOracle (WaitStatus.exited 0))).exit = 0 := by
  constructor
  · exact C2_exit_code_mirrored cfgA (okOracle (WaitStatus.exited 42)) 42
      rfl rfl rfl rfl (by decide) (by decide)
  · exact C2_exit_code_mirrored cfgA (okOracle (WaitStatus.exited 0)) 0
      rfl rfl rfl rfl (by decide) (by decide)

/-- C4: as stated the claim fails on the code: flushing the single
buffered line `"x"` performs two separate `write` calls — one with the
line bytes and one with the lone newline — and no call carries the line
together with its newline. -/
theorem C4_counterexample :
    (flushFrom cfgA (okOracle (WaitStatus.exited 0)) ["x"] 0).1
        = [Event.writeCall "x", Event.writeCall "\n"]
      ∧ Event.writeCall "x\n"
          ∉ (flushFrom cfgA (okOracle (WaitStatus.exited 0)) ["x"] 0).1 := by
  decide

/-- C4 (amended): during a deferred flush that completes, each buffered
line is transferred by exactly two `write` calls in order — one carrying
the line content and one carrying the single newline byte — never by one
combined write. -/
theorem C4_two_writes_per_line (cfg : Config) (o : Oracle)
    (hf : o.forkFails = false) (hw : o.waitFails = false)
    (ho : o.openFails = false) (hfl : flushErr cfg o = none) :
    (run cfg o).trace
      = Event.forkCall :: Event.waitReturn :: Event.openLog (logfileOf cfg)
          :: (logLines cfg o.waitStatus).flatMap
              (fun l => [Event.writeCall l, Event.writeCall "\n"]) := by
  rw [(run_ok cfg o hf hw ho).1, flushFrom_ok cfg o _ 0 hfl]

/-- C4 witness: the amended theorem evaluated on a concrete all-success
run. -/
theorem C4_witness :
    (run cfgA (okOracle (WaitStatus.exited 0))).trace
      = Event.forkCall :: Event.waitReturn :: Event.openLog (logfileOf cfgA)
          :: (logLines cfgA (okOracle (WaitStatus.exited 0)).waitStatus).flatMap
              (fun l => [Event.writeCall l, Event.writeCall "\n"]) :=
  C4_two_writes_per_line cfgA (okOracle (WaitStatus.exited 0))
    rfl rfl rfl (by decide)

/-- C5: when `execv` fails the child prints a diagnostic on its own
standard error and exits with the reserved code 128 performing no
log-file operation; the parent (which then observes a normal exit with
code 128) logs the distinct replacement-failure line — not the generic
exit-code line — and the wrapper's final exit status is 128. -/
theorem C5_exec_failure (cfg : Config) (o : Oracle) (execErr : String)
    (hf : o.forkFails = false) (hw : o.waitFails = false)
    (ho : o.openFails = false)
    (hs : o.waitStatus = WaitStatus.exited 128)
    (hfl : flushErr cfg o = none) :
    (childRun cfg true execErr).exit = some 128
      ∧ (childRun cfg true execErr).events
          = [Event.stderrMsg (prognameOf cfg ++ " (wrapper): "
              ++ "execv() failed" ++ ": " ++ execErr)]
      ∧ (∀ e ∈ (childRun cfg true execErr).events, isLogFileOp e = false)
      ∧ Event.writeCall (endLine cfg (WaitStatus.exited 128))
          ∈ (run cfg o).trace
      ∧ outcomeMsg (WaitStatus.exited 128) = "failed to execv(2) (ec==128)"
      ∧ outcomeMsg (WaitStatus.exited 128) ≠ "exit with code 128"
      ∧ (run cfg o).exit = 128 := by
  refine ⟨rfl, rfl, ?_, ?_, rfl, by decide, ?_⟩
  · intro e he
    fin_cases he
    rfl
  · rw [(run_ok cfg o hf hw ho).1, flushFrom_ok cfg o _ 0 hfl, hs]
    simp [logLines]
  · rw [(run_ok cfg o hf hw ho).2, hfl, hs]
    rfl

/-- C5 witness: the theorem evaluated on a concrete failing exec and the
matching parent run. -/
theorem C5_witness :
    (childRun cfgA true "No such file or directory").exit = some 128
      ∧ (run cfgA (okOracle (WaitStatus.exited 128))).exit = 128 :=
  ⟨(C5_exec_failure cfgA (okOracle (WaitStatus.exited 128))
      "No such file or directory" rfl rfl rfl rfl (by decide)).1,
   (C5_exec_failure cfgA (okOracle (WaitStatus.exited 128))
      "No such file or directory" rfl rfl rfl rfl (by decide)).2.2.2.2.2.2⟩

/-- C6: as stated the claim fails on the code: for a child killed by
signal 1 the wrapper's exit code is 1 (`EXIT_FAILURE`), which IS the
signal number itself, contradicting the clause that the exit code is
never the signal number. -/
theorem C6_counterexample :
    (okOracle (WaitStatus.signaled 1)).waitStatus = WaitStatus.signaled 1
      ∧ (run cfgA (okOracle (WaitStatus.signaled 1))).exit = 1 :=
  ⟨rfl, by decide⟩

/-- C6 (amended): for every child terminated by a signal the outcome line
records the signal number, and the wrapper's exit code is the fixed
generic failure value `EXIT_FAILURE` (1) — nonzero, not 128, not
128+signal — which is not derived from the signal and differs from the
signal number except in the coincidental case signal = 1. -/
theorem C6_signal_generic_failure (cfg : Config) (o : Oracle) (sig : Nat)
    (hf : o.forkFails = false) (hw : o.waitFails = false)
    (ho : o.openFails = false)
    (hs : o.waitStatus = WaitStatus.signaled sig)
    (hfl : flushErr cfg o = none) :
    (run cfg o).exit = EXIT_FAILURE
      ∧ EXIT_FAILURE ≠ 0 ∧ EXIT_FAILURE ≠ 128
      ∧ (∀ s : Nat, EXIT_FAILURE ≠ 128 + s)
      ∧ Event.writeCall (endLine cfg (WaitStatus.signaled sig))
          ∈ (run cfg o).trace
      ∧ outcomeMsg (WaitStatus.signaled sig)
          = "exit with signal " ++ toString sig
      ∧ (sig ≠ 1 → (run cfg o).exit ≠ sig) := by
  have hex : (run cfg o).exit = EXIT_FAILURE := by
    rw [(run_ok cfg o hf hw ho).2, hfl, hs]
    rfl
  refine ⟨hex, by decide, by decide, ?_, ?_, rfl, ?_⟩
  · intro s
    simp only [EXIT_FAILURE]
    omega
  · rw [(run_ok cfg o hf hw ho).1, flushFrom_ok cfg o _ 0 hfl, hs]
    simp [logLines]
  · intro hs1
    rw [hex]
    simp only [EXIT_FAILURE]
    omega

/-- C6 witness: the amended theorem on a concrete child killed by signal
9: exit code 1, and 1 ≠ 9. -/
theorem C6_witness :
    (run cfgA (okOracle (WaitStatus.signaled 9))).exit = EXIT_FAILURE
      ∧ (run cfgA (okOracle (WaitStatus.signaled 9))).exit ≠ 9 :=
  ⟨(C6_signal_generic_failure cfgA (okOracle (WaitStatus.signaled 9)) 9
      rfl rfl rfl rfl (by decide)).1,
   (C6_signal_generic_failure cfgA (okOracle (WaitStatus.signaled 9)) 9
      rfl rfl rfl rfl (by decide)).2.2.2.2.2.2 (by decide)⟩

/-- C7: the argument vector handed to `execv` is the wrapper's own
argument vector, unchanged; its element 0 is the wrapper's invocation
path as received, and whenever that path differs from the resolved
target binary path, the exec'd program's argument 0 is not the target
binary path. -/
theorem C7_argv_passthrough (cfg : Config) (execFails : Bool)
    (execErr : String) (a0 : String) (rest : List String)
    (h : cfg.argv = a0 :: rest) :
    (childRun cfg execFails execErr).execArgs = cfg.argv
      ∧ (childRun cfg execFails execErr).execArgs.head? = some a0
      ∧ (a0 ≠ binaryOf cfg →
          (childRun cfg execFails execErr).execArgs.head?
            ≠ some (binaryOf cfg)) := by
  refine ⟨rfl, ?_, ?_⟩
  · show cfg.argv.head? = some a0
    rw [h]
    rfl
  · intro hne hcon
    have hh : cfg.argv.head? = some (binaryOf cfg) := hcon
    rw [h] at hh
    exact hne (Option.some.inj hh)

/-- C7 witness: the theorem on the concrete invocation
`["/sbin/mount", "-t", "ext4"]` with the default target binary. -/
theorem C7_witness :
    (childRun cfgA false "err").execArgs = cfgA.argv
      ∧ (childRun cfgA false "err").execArgs.head? ≠ some (binaryOf cfgA) :=
  ⟨(C7_argv_passthrough cfgA false "err" "/sbin/mount" ["-t", "ext4"] rfl).1,
   (C7_argv_passthrough cfgA false "err" "/sbin/mount" ["-t", "ext4"] rfl).2.2
     (by decide)⟩

/-- C9: when some flush `write` reports an error or a short transfer the
wrapper reports the failure on standard error and exits `EXIT_FAILURE`,
whatever the child's outcome was (the hypotheses place no constraint on
the wait status, so this covers a child that already exited 0). -/
theorem C9_short_write_fatal (cfg : Config) (o : Oracle)
    (hf : o.forkFails = false) (hw : o.waitFails = false)
    (ho : o.openFails = false) (hfl : flushErr cfg o ≠ none) :
    (run cfg o).exit = EXIT_FAILURE
      ∧ Event.stderrMsg (logWriteFailMsg cfg o) ∈ (run cfg o).trace := by
  obtain ⟨hx, hm⟩ :=
    flushFrom_fail cfg o (logLines cfg o.waitStatus) 0 hfl
  constructor
  · rw [(run_ok cfg o hf hw ho).2,
      show flushErr cfg o = some EXIT_FAILURE from hx]
    rfl
  · rw [(run_ok cfg o hf hw ho).1]
    exact List.mem_cons_of_mem _
      (List.mem_cons_of_mem _ (List.mem_cons_of_mem _ hm))

/-- C9 witness: a concrete run whose child exited 0 but whose first log
`write` reports 0 bytes: the wrapper still exits `EXIT_FAILURE` and
reports the write failure. -/
theorem C9_witness :
    (run cfgA writeFailOracle).exit = EXIT_FAILURE
      ∧ writeFailOracle.waitStatus = WaitStatus.exited 0
      ∧ Event.stderrMsg (logWriteFailMsg cfgA writeFailOracle)
          ∈ (run cfgA writeFailOracle).trace :=
  ⟨(C9_short_write_fatal cfgA writeFailOracle rfl rfl rfl (by decide)).1,
   rfl,
   (C9_short_write_fatal cfgA writeFailOracle rfl rfl rfl (by decide)).2⟩

/-- C10: whenever the parent observes a normal child exit with code 128 —
and the wait status is all it can observe, so a genuine target exit 128
presents exactly as a failed exec — the logged outcome line is the
replacement-failure message, not the generic exit-code line, and the
wrapper exits 128. -/
theorem C10_exit_128_indistinguishable (cfg : Config) (o : Oracle)
    (hf : o.forkFails = false) (hw : o.waitFails = false)
    (ho : o.openFails = false)
    (hs : o.waitStatus = WaitStatus.exited 128)
    (hfl : flushErr cfg o = none) :
    (run cfg o).exit = 128
      ∧ childExitOf (WaitStatus.exited 128) = 128
      ∧ Event.writeCall (endLine cfg (WaitStatus.exited 128))
          ∈ (run cfg o).trace
      ∧ outcomeMsg (WaitStatus.exited 128) = "failed to execv(2) (ec==128)"
      ∧ outcomeMsg (WaitStatus.exited 128) ≠ "exit with code 128" := by
  refine ⟨?_, rfl, ?_, rfl, by decide⟩
  · rw [(run_ok cfg o hf hw ho).2, hfl, hs]
    rfl
  · rw [(run_ok cfg o hf hw ho).1, flushFrom_ok cfg o _ 0 hfl, hs]
    simp [logLines]

/-- C10 witness: a concrete run whose target binary legitimately returned
128 (no exec failure occurred) still exits 128. -/
theorem C10_witness :
    (run cfgA (okOracle (WaitStatus.exited 128))).exit = 128
      ∧ outcomeMsg (WaitStatus.exited 128) ≠ "exit with code 128" :=
  ⟨(C10_exit_128_indistinguishable cfgA (okOracle (WaitStatus.exited 128))
      rfl rfl rfl rfl (by decide)).1,
   (C10_exit_128_indistinguishable cfgA (okOracle (WaitStatus.exited 128))
      rfl rfl rfl rfl (by decide)).2.2.2.2⟩

end Mountwrapper
